import Mathlib

/-!
# CFO AI assistant — verification of the routing / dispatch / RAG core

Shallow embedding of the query-classification and multi-agent dispatch layer
of the CFO assistant (files `src/query_router.py`, `src/orchestrator.py`,
`src/rag_agent.py`, `src/sql_agent.py`, `src/web_agent.py`).

External collaborators (the hosted language-model gateway, the embedding
model, the text splitter, the Chroma similarity index's vector math, and the
web-search provider) are modelled as oracle parameters: a gateway call is an
`Except String String` (an exception message or the returned text), the
splitter and embedder are function parameters, and so on.  All control flow,
string constants and state updates of the repository's own code are embedded
directly.
-/

/-! ## Python string primitives (ASCII semantics)

The queries, keywords and category tokens manipulated by the code are ASCII;
`Char.toLower` / `Char.toUpper` agree with Python `str.lower` / `str.upper`
on ASCII. -/

/-- Python `s.lower()`. -/
def pyToLower (s : String) : String := String.mk (s.data.map Char.toLower)

/-- Python `s.upper()`. -/
def pyToUpper (s : String) : String := String.mk (s.data.map Char.toUpper)

/-- Python whitespace for `str.strip()`. -/
def pyIsSpace (c : Char) : Bool :=
  c == ' ' || c == '\t' || c == '\n' || c == '\r' || c == '\x0b' || c == '\x0c'

/-- Python `s.strip()`: drop whitespace from both ends. -/
def pyStrip (s : String) : String :=
  String.mk (((s.data.dropWhile pyIsSpace).reverse.dropWhile pyIsSpace).reverse)

/-- Substring occurrence on character lists. -/
def listContainsSub (needle : List Char) : List Char → Bool
  | [] => needle.isEmpty
  | c :: t => needle.isPrefixOf (c :: t) || listContainsSub needle t

/-- Python `needle in hay` on strings. -/
def strContains (hay needle : String) : Bool :=
  listContainsSub needle.data hay.data

/-! ## QueryRouter (`src/query_router.py`) -/

namespace QueryRouter

/-- `sql_keywords` from `QueryRouter.route` (lines 61-62). -/
def sql_keywords : List String :=
  ["show", "list", "compare", "average", "sum", "count", "revenue", "profit",
   "margin", "companies", "ratio", "financial", "metric"]

/-- `policy_keywords` from `QueryRouter.route` (lines 67-68). -/
def policy_keywords : List String :=
  ["policy", "approval", "procedure", "guideline", "process",
   "requirement", "should we", "how to", "recognize"]

/-- The deterministic keyword fallback inside `QueryRouter.route`
(lines 58-73): lower-case the query, look for a structured-data keyword
first, then a policy keyword, defaulting to WEB. -/
def fallbackRoute (query : String) : String :=
  let query_lower := pyToLower query
  if sql_keywords.any (fun kw => strContains query_lower kw) then "SQL"
  else if policy_keywords.any (fun kw => strContains query_lower kw) then "RAG"
  else "WEB"

/-- `query.lower()` contains a structured-data keyword. -/
def hasSqlKeyword (query : String) : Bool :=
  sql_keywords.any (fun kw => strContains (pyToLower query) kw)

/-- `query.lower()` contains a policy keyword. -/
def hasPolicyKeyword (query : String) : Bool :=
  policy_keywords.any (fun kw => strContains (pyToLower query) kw)

/-- `QueryRouter.route` (lines 46-75).  The classification request to the
language-model gateway is the oracle `gateway`: `.error e` models the call
raising an exception with message `e`, `.ok text` models it returning
`text`.  The method body has no `try`/`except`, so a raised exception
propagates (`.error e` result); on a returned text the code strips,
upper-cases and validates it, running the keyword fallback when the token
is not one of the three category names. -/
def route (gateway : Except String String) (query : String) :
    Except String String :=
  match gateway with
  | .error e => .error e
  | .ok text =>
    let r := pyToUpper (pyStrip text)
    if (["SQL", "RAG", "WEB"] : List String).contains r then .ok r
    else .ok (fallbackRoute query)

end QueryRouter

/-! ## SQLAgent (`src/sql_agent.py`) -/

namespace SQLAgent

/-- What the `try` block of `SQLAgent.query` computes when nothing raises:
the narrated answer and the generated SQL text. -/
structure SqlSuccess where
  answer : String
  sql_query : String
deriving DecidableEq

/-- The dict returned by `SQLAgent.query` (`dataframe` omitted: the claims
never mention it and it carries no control flow). -/
structure SqlResult where
  answer : String
  sql_query : Option String
  error : Option String
deriving DecidableEq

/-- `SQLAgent.query` (lines 120-148).  The `try` block (SQL generation,
execution and narration — all external calls) is the oracle `body`:
`.error e` models any exception with message `str(e) = e`, which the
`except` clause converts into an error dict with an apology answer. -/
def query (body : Except String SqlSuccess) : SqlResult :=
  match body with
  | .ok s => { answer := s.answer, sql_query := some s.sql_query, error := none }
  | .error e =>
      { answer := "I encountered an error: " ++ e, sql_query := none,
        error := some e }

end SQLAgent

/-! ## RAGAgent query paths (`src/rag_agent.py`) -/

namespace RAGAgent

/-- What a successful RAG answer carries. -/
structure RagSuccess where
  answer : String
  sources : List String
deriving DecidableEq

/-- The dict returned by `RAGAgent.query` / `RAGAgent._stateless_query`
(`source_documents` omitted: always `[]` on the paths the claims touch). -/
structure RagResult where
  answer : String
  sources : List String
  error : Option String
deriving DecidableEq

/-- `RAGAgent.query` (lines 147-189) as seen by the Orchestrator: the body
(conversational chain or stateless retrieval, both ending in external
calls) is the oracle `body`; the `except` clause turns a raised `e` into an
error dict with an apology answer. -/
def query (body : Except String RagSuccess) : RagResult :=
  match body with
  | .ok s => { answer := s.answer, sources := s.sources, error := none }
  | .error e =>
      { answer := "I encountered an error: " ++ e, sources := [],
        error := some e }

/-- `RAGAgent._stateless_query` (lines 191-247).  `results` are the top-k
(k = 5) similarity-search hits as `(document text, source name)` pairs —
the vector search itself is the Chroma collection, an external collaborator;
`genAnswer` is what one generation call to the gateway would return.  The
second component counts the generation calls actually issued.  Source names
are deduplicated (`list(set(...))`; Python set order is unspecified, the
first-occurrence order is used here). -/
def statelessQuery (results : List (String × String)) (genAnswer : String) :
    RagResult × Nat :=
  if results.isEmpty then
    ({ answer := "I couldn\x27t find any relevant information in the policy documents.",
       sources := [], error := none }, 0)
  else
    ({ answer := genAnswer,
       sources := (results.map (fun r => r.2)).eraseDups, error := none }, 1)

end RAGAgent

/-! ## WebAgent (`src/web_agent.py`) -/

namespace WebAgent

/-- Outcome of the `try` block of `WebAgent.query` when a provider is
configured.  `searchEmpty` covers `_search_web` returning `[]` — including
a runtime search failure, which `_search_web` catches internally (lines
39-41) and maps to `[]`; `success` is a non-empty hit list plus the
generated answer; `raised` is an exception escaping to the `except` clause
(e.g. a generation failure). -/
inductive WebOutcome where
  | searchEmpty
  | success (results : List (String × String)) (genAnswer : String)
  | raised (e : String)
deriving DecidableEq

/-- The dict returned by `WebAgent.query` (`search_results` omitted;
`sources` as `(title, url)` pairs). -/
structure WebResult where
  answer : String
  sources : List (String × String)
  error : Option String
deriving DecidableEq

/-- `WebAgent.query` (lines 58-131).  `search_enabled` is the
provider-configured flag set in `__init__`; `outcome` the oracle for the
`try` block. -/
def query (search_enabled : Bool) (outcome : WebOutcome) : WebResult :=
  if search_enabled = false then
    { answer := "Web search is not configured. Please add TAVILY_API_KEY to your .env file. You can get a free API key at https://tavily.com",
      sources := [], error := some "Web search not configured" }
  else
    match outcome with
    | .searchEmpty =>
        { answer := "I couldn\x27t find any relevant information on the web for your query.",
          sources := [], error := none }
    | .success results genAnswer =>
        { answer := genAnswer, sources := results, error := none }
    | .raised e =>
        { answer := "I encountered an error while searching: " ++ e,
          sources := [], error := some e }

end WebAgent

/-! ## Orchestrator (`src/orchestrator.py`) -/

namespace CFOAssistant

/-- The dict returned by `CFOAssistant.query`.  `metadataKeys` models the
`metadata` sub-dict by its key set (its values are the handler fields
already recorded in the handler result models). -/
structure OrchResult where
  answer : String
  agent_used : String
  metadataKeys : List String
  error : Option String
deriving DecidableEq

/-- Python truthiness of the optional `force_agent` argument: `None` and
the empty string are falsy. -/
def pyTruthy (o : Option String) : Bool :=
  match o with
  | none => false
  | some s => !(s == "")

/-- The dispatch chain of `CFOAssistant.query` (lines 42-84) after
`agent_type` is resolved: invoke at most one handler and project its result
into the uniform envelope.  The second component records which handler was
invoked (`none` in the unknown-agent branch, which invokes no handler). -/
def dispatch (agent_type : String) (sqlBody : Except String SQLAgent.SqlSuccess)
    (ragBody : Except String RAGAgent.RagSuccess)
    (webEnabled : Bool) (webOutcome : WebAgent.WebOutcome) :
    OrchResult × Option String :=
  if agent_type = "SQL" then
    let r := SQLAgent.query sqlBody
    ({ answer := r.answer, agent_used := "SQL Database",
       metadataKeys := ["sql_query", "dataframe"], error := r.error }, some "SQL")
  else if agent_type = "RAG" then
    let r := RAGAgent.query ragBody
    ({ answer := r.answer, agent_used := "Policy Documents (RAG)",
       metadataKeys := ["sources", "chunks"], error := r.error }, some "RAG")
  else if agent_type = "WEB" then
    let r := WebAgent.query webEnabled webOutcome
    ({ answer := r.answer, agent_used := "Web Search",
       metadataKeys := ["sources", "search_results"], error := r.error }, some "WEB")
  else
    ({ answer := "I couldn\x27t determine how to handle your query. Please try rephrasing.",
       agent_used := "None", metadataKeys := [],
       error := some "Unknown agent type" }, none)

/-- `CFOAssistant.query` (lines 20-84).  `routerGateway` is the oracle for
the Router's classification call; the handler oracles are as in their
models.  Returns `.error` when an exception escapes (the Router's body has
no handler for a gateway exception, and `CFOAssistant.query` installs no
`try`/`except` either); otherwise `.ok (result, routerCalls, handlerInvoked)`
where `routerCalls` counts invocations of `self.router.route`. -/
def query (routerGateway : Except String String)
    (sqlBody : Except String SQLAgent.SqlSuccess)
    (ragBody : Except String RAGAgent.RagSuccess)
    (webEnabled : Bool) (webOutcome : WebAgent.WebOutcome)
    (question : String) (force_agent : Option String) :
    Except String (OrchResult × Nat × Option String) :=
  if pyTruthy force_agent then
    let agent_type := pyToUpper (force_agent.getD "")
    .ok ((dispatch agent_type sqlBody ragBody webEnabled webOutcome).1, 0,
         (dispatch agent_type sqlBody ragBody webEnabled webOutcome).2)
  else
    match QueryRouter.route routerGateway question with
    | .error e => .error e
    | .ok agent_type =>
        .ok ((dispatch agent_type sqlBody ragBody webEnabled webOutcome).1, 1,
             (dispatch agent_type sqlBody ragBody webEnabled webOutcome).2)

end CFOAssistant

namespace RAGAgent

/-- A stored chunk record of the Chroma collection: id, text, the
source / ordinal metadata, and the embedding vector (modelled over `Int`
components; its values come from the external embedding model). -/
structure Chunk where
  id : String
  text : String
  source : String
  chunk_id : Nat
  embedding : List Int
deriving DecidableEq

/-- RAGAgent state touched by ingestion and memory: the persistent
collection and the conversation memory — `none` until
`_initialize_conversation_chain` has run (`self.memory = None`), then the
ordered `(question, answer)` turn log. -/
structure AgentState where
  collection : List Chunk
  memory : Option (List (String × String))
deriving DecidableEq

/-- Chroma `collection.add` (line 138): ids already present in the
collection are NOT overwritten — the library warns about an existing
embedding id and keeps the stored record — while records with new ids are
appended in order. -/
def collectionAdd (c : List Chunk) (new : List Chunk) : List Chunk :=
  c ++ new.filter (fun ch => !((c.map Chunk.id).contains ch.id))

/-- The chunk records `ingest_documents` builds (lines 109-134): for each
document, given as `(stem, full text)` (`doc_path.stem` and the file
contents), the splitter pieces carry ids `{stem}_chunk_{i}`, source
metadata `{stem}.txt`, and the embedding the batch `encode` call assigns
to each piece.  The LangChain text splitter `split` and the
sentence-transformer `embed` are external collaborators. -/
def chunksOfDocs (split : String → List String) (embed : String → List Int)
    (docs : List (String × String)) : List Chunk :=
  docs.flatMap (fun d =>
    ((split d.2).enum).map (fun p =>
      { id := d.1 ++ "_chunk_" ++ toString p.1, text := p.2,
        source := d.1 ++ ".txt", chunk_id := p.1, embedding := embed p.2 }))

/-- `RAGAgent.ingest_documents` (lines 96-145) as a state transformer.
Returns the new state together with the number of embed-and-bulk-insert
operations performed (`0` on the skip path, `1` otherwise).  The
`FileNotFoundError` branch for a missing directory is outside the model:
the documents are given.  Note the reload path never deletes: it only
calls `collection.add` on top of whatever the collection holds. -/
def ingest_documents (split : String → List String) (embed : String → List Int)
    (docs : List (String × String)) (force_reload : Bool)
    (st : AgentState) : AgentState × Nat :=
  if force_reload = false ∧ 0 < st.collection.length then
    (st, 0)
  else
    ({ st with
        collection := collectionAdd st.collection (chunksOfDocs split embed docs) },
     1)

/-- `RAGAgent.clear_memory` (lines 249-253): `if self.memory:
self.memory.clear()` — clears the turn log when a memory exists, touches
nothing else. -/
def clear_memory (st : AgentState) : AgentState :=
  match st.memory with
  | none => st
  | some _ => { st with memory := some [] }

/-- `RAGAgent.get_conversation_history` (lines 255-259). -/
def get_conversation_history (st : AgentState) : List (String × String) :=
  match st.memory with
  | none => []
  | some m => m

end RAGAgent

/-! ## Theorems -/

/-- C1: the keyword fallback checks structured-data keywords strictly before
policy keywords: any query whose lower-cased text contains a structured-data
keyword is classified SQL (even if it also contains a policy keyword); with
no structured-data keyword but a policy keyword it is classified RAG; with
neither it is classified WEB. -/
theorem C1_fallback_priority (q : String) :
    (QueryRouter.hasSqlKeyword q = true → QueryRouter.fallbackRoute q = "SQL") ∧
    (QueryRouter.hasSqlKeyword q = false → QueryRouter.hasPolicyKeyword q = true →
      QueryRouter.fallbackRoute q = "RAG") ∧
    (QueryRouter.hasSqlKeyword q = false → QueryRouter.hasPolicyKeyword q = false →
      QueryRouter.fallbackRoute q = "WEB") := by
  refine ⟨fun h1 => ?_, fun h1 h2 => ?_, fun h1 h2 => ?_⟩ <;>
    simp only [QueryRouter.fallbackRoute, QueryRouter.hasSqlKeyword,
      QueryRouter.hasPolicyKeyword] at * <;>
    simp [h1, *]

/-- Witness for C1 at concrete queries: "compare the approval policy"
contains both a structured-data and a policy keyword and is routed SQL;
"what is the approval policy" is routed RAG; "hello there" is routed WEB. -/
theorem C1_fallback_priority_witness :
    QueryRouter.fallbackRoute "compare the approval policy" = "SQL" ∧
    QueryRouter.fallbackRoute "what is the approval policy" = "RAG" ∧
    QueryRouter.fallbackRoute "hello there" = "WEB" :=
  ⟨(C1_fallback_priority "compare the approval policy").1 (by decide),
   (C1_fallback_priority "what is the approval policy").2.1 (by decide) (by decide),
   (C1_fallback_priority "hello there").2.2 (by decide) (by decide)⟩

/-- C2 counterexample: when the gateway call raises (here a timeout while
classifying "show revenue"), `QueryRouter.route` does NOT return normally
through the keyword fallback — the exception propagates to the caller,
because the method body has no `try`/`except` around the gateway call. -/
theorem C2_gateway_failure_counterexample :
    QueryRouter.route (Except.error "GatewayError: timeout") "show revenue"
      = Except.error "GatewayError: timeout" ∧
    (QueryRouter.route (Except.error "GatewayError: timeout") "show revenue").isOk
      = false := by
  exact ⟨rfl, rfl⟩

/-- C2 (amended): only the invalid-token case is recovered.  If the gateway
call returns a text whose stripped, upper-cased form is not one of the three
category names, `route` returns normally via the deterministic keyword
fallback; but if the gateway call raises, the exception propagates out of
the Router unhandled. -/
theorem C2_gateway_recovery (q t e : String) :
    ((["SQL", "RAG", "WEB"] : List String).contains (pyToUpper (pyStrip t)) = false →
      QueryRouter.route (.ok t) q = .ok (QueryRouter.fallbackRoute q)) ∧
    QueryRouter.route (.error e) q = .error e := by
  constructor
  · intro h
    simp only [QueryRouter.route, h]
    simp
  · rfl

/-- Witness for C2 (amended) at `t = "BANANA"`: the token is invalid, so the
fallback answers; "show revenue" contains the structured keyword "show". -/
theorem C2_gateway_recovery_witness :
    QueryRouter.route (.ok "BANANA") "show revenue" = .ok "SQL" := by
  have h := (C2_gateway_recovery "show revenue" "BANANA" "e").1 (by decide)
  have h2 : QueryRouter.fallbackRoute "show revenue" = "SQL" := by decide
  rw [h, h2]

/-! ## Helper lemmas on strings and result records -/

/-- Strings with different first characters differ. -/
theorem str_ne_of_head_ne (s t : String) (h : s.data.head? ≠ t.data.head?) :
    s ≠ t :=
  fun he => h (by rw [he])

/-- A string with a first character is not the empty string. -/
theorem str_ne_empty_of_head (s : String) (c : Char)
    (h : s.data.head? = some c) : s ≠ "" := by
  intro he
  rw [he] at h
  exact Option.noConfusion h

/-- Web results with different answers differ. -/
theorem webResult_ne_of_answer_ne (a b : WebAgent.WebResult)
    (h : a.answer ≠ b.answer) : a ≠ b :=
  fun he => h (by rw [he])

/-! ## Claims about the Orchestrator and handlers -/

/-- C5: a truthy explicit override makes the Orchestrator skip the Router —
zero router invocations, and the result is exactly the dispatch on the
upper-cased override (whatever the router gateway would have done); with no
override the Router is consulted (one invocation when it returns). -/
theorem C5_override_skips_router (rg : Except String String)
    (sqlBody : Except String SQLAgent.SqlSuccess)
    (ragBody : Except String RAGAgent.RagSuccess)
    (wE : Bool) (wO : WebAgent.WebOutcome) (q s : String) (h : s ≠ "") :
    CFOAssistant.query rg sqlBody ragBody wE wO q (some s) =
      .ok ((CFOAssistant.dispatch (pyToUpper s) sqlBody ragBody wE wO).1, 0,
           (CFOAssistant.dispatch (pyToUpper s) sqlBody ragBody wE wO).2) ∧
    CFOAssistant.query rg sqlBody ragBody wE wO q none =
      (match QueryRouter.route rg q with
       | .error e => .error e
       | .ok a =>
           .ok ((CFOAssistant.dispatch a sqlBody ragBody wE wO).1, 1,
                (CFOAssistant.dispatch a sqlBody ragBody wE wO).2)) := by
  constructor
  · simp [CFOAssistant.query, CFOAssistant.pyTruthy, h]
  · simp [CFOAssistant.query, CFOAssistant.pyTruthy]

/-- Witness for C5: override "rag" while the router gateway is down — the
query still dispatches to the RAG handler with zero router calls. -/
theorem C5_override_skips_router_witness :
    CFOAssistant.query (.error "gateway down") (.error "unused")
        (.ok { answer := "ans", sources := ["p.txt"] }) false .searchEmpty
        "what is our policy" (some "rag") =
      .ok ({ answer := "ans", agent_used := "Policy Documents (RAG)",
             metadataKeys := ["sources", "chunks"], error := none },
           0, some "RAG") := by
  have h := (C5_override_skips_router (.error "gateway down") (.error "unused")
    (.ok { answer := "ans", sources := ["p.txt"] }) false .searchEmpty
    "what is our policy" "rag" (by decide)).1
  rw [h]
  rfl

/-- C7: when the dispatched handler reports an error, the Orchestrator
passes the error through verbatim in the `error` field, keeps a non-empty
human-readable `answer`, and still returns normally (an `.ok` envelope) —
shown for each of the three handlers failing with an arbitrary message. -/
theorem C7_handler_error_passthrough (rg : Except String String)
    (sqlBody : Except String SQLAgent.SqlSuccess)
    (ragBody : Except String RAGAgent.RagSuccess)
    (wO : WebAgent.WebOutcome) (wE : Bool) (q e : String) :
    (CFOAssistant.query rg (.error e) ragBody wE wO q (some "SQL") =
      .ok ({ answer := "I encountered an error: " ++ e,
             agent_used := "SQL Database",
             metadataKeys := ["sql_query", "dataframe"], error := some e },
           0, some "SQL")) ∧
    (CFOAssistant.query rg sqlBody (.error e) wE wO q (some "RAG") =
      .ok ({ answer := "I encountered an error: " ++ e,
             agent_used := "Policy Documents (RAG)",
             metadataKeys := ["sources", "chunks"], error := some e },
           0, some "RAG")) ∧
    (CFOAssistant.query rg sqlBody ragBody true (.raised e) q (some "WEB") =
      .ok ({ answer := "I encountered an error while searching: " ++ e,
             agent_used := "Web Search",
             metadataKeys := ["sources", "search_results"], error := some e },
           0, some "WEB")) ∧
    "I encountered an error: " ++ e ≠ "" ∧
    "I encountered an error while searching: " ++ e ≠ "" :=
  ⟨rfl, rfl, rfl,
   str_ne_empty_of_head _ 'I' rfl, str_ne_empty_of_head _ 'I' rfl⟩

/-- C8: with no search provider configured, the web handler returns the
fixed not-configured answer (non-empty and naming the credential to add)
with the not-configured error; and that result differs from every result a
configured provider can produce on a runtime search failure — whether the
failure is caught inside `_search_web` (empty hits, `error = None`) or
raises out of the `try` block (apology answer). -/
theorem C8_web_not_configured (o : WebAgent.WebOutcome) (e : String) :
    WebAgent.query false o =
      { answer := "Web search is not configured. Please add TAVILY_API_KEY to your .env file. You can get a free API key at https://tavily.com",
        sources := [], error := some "Web search not configured" } ∧
    (WebAgent.query false o).answer ≠ "" ∧
    strContains (WebAgent.query false o).answer "TAVILY_API_KEY" = true ∧
    WebAgent.query false o ≠ WebAgent.query true .searchEmpty ∧
    WebAgent.query false o ≠ WebAgent.query true (.raised e) := by
  refine ⟨rfl, str_ne_empty_of_head _ 'W' rfl, rfl, ?_, ?_⟩
  · intro he
    have h := congrArg WebAgent.WebResult.error he
    simp [WebAgent.query] at h
  · exact webResult_ne_of_answer_ne _ _
      (str_ne_of_head_ne _ _ (fun h => by
        have h2 : ('W' : Char) = 'I' := Option.some.inj h
        exact absurd h2 (by decide)))

/-- C10: override dispatch is case-insensitive — overrides with equal
upper-casings produce identical results — and any truthy override that does
not upper-case to SQL, RAG or WEB invokes no handler and yields the fixed
unknown-handler envelope (agent "None", explanatory answer, error
"Unknown agent type", empty metadata). -/
theorem C10_override_case_and_unknown (rg : Except String String)
    (sqlBody : Except String SQLAgent.SqlSuccess)
    (ragBody : Except String RAGAgent.RagSuccess)
    (wE : Bool) (wO : WebAgent.WebOutcome) (q : String) :
    (∀ s₁ s₂ : String, s₁ ≠ "" → s₂ ≠ "" → pyToUpper s₁ = pyToUpper s₂ →
      CFOAssistant.query rg sqlBody ragBody wE wO q (some s₁) =
        CFOAssistant.query rg sqlBody ragBody wE wO q (some s₂)) ∧
    (∀ s : String, s ≠ "" →
      (["SQL", "RAG", "WEB"] : List String).contains (pyToUpper s) = false →
      CFOAssistant.query rg sqlBody ragBody wE wO q (some s) =
        .ok ({ answer := "I couldn\x27t determine how to handle your query. Please try rephrasing.",
               agent_used := "None", metadataKeys := [],
               error := some "Unknown agent type" },
             0, none)) := by
  constructor
  · intro s₁ s₂ h1 h2 hup
    simp [CFOAssistant.query, CFOAssistant.pyTruthy, h1, h2, hup]
  · intro s hs hcon
    have h1 : pyToUpper s ≠ "SQL" := fun hx => by
      rw [hx] at hcon; exact Bool.noConfusion hcon
    have h2 : pyToUpper s ≠ "RAG" := fun hx => by
      rw [hx] at hcon; exact Bool.noConfusion hcon
    have h3 : pyToUpper s ≠ "WEB" := fun hx => by
      rw [hx] at hcon; exact Bool.noConfusion hcon
    simp [CFOAssistant.query, CFOAssistant.pyTruthy, hs, CFOAssistant.dispatch,
      h1, h2, h3]

/-- Witness for C10: "sql" and "SQL" give the same result, and override
"planner" yields the unknown-handler envelope with no handler invoked. -/
theorem C10_override_case_and_unknown_witness :
    CFOAssistant.query (.ok "SQL") (.ok { answer := "a", sql_query := "q" })
        (.error "unused") false .searchEmpty "top companies" (some "sql") =
      CFOAssistant.query (.ok "SQL") (.ok { answer := "a", sql_query := "q" })
        (.error "unused") false .searchEmpty "top companies" (some "SQL") ∧
    CFOAssistant.query (.ok "SQL") (.ok { answer := "a", sql_query := "q" })
        (.error "unused") false .searchEmpty "top companies" (some "planner") =
      .ok ({ answer := "I couldn\x27t determine how to handle your query. Please try rephrasing.",
             agent_used := "None", metadataKeys := [],
             error := some "Unknown agent type" },
           0, none) :=
  ⟨(C10_override_case_and_unknown (.ok "SQL") (.ok { answer := "a", sql_query := "q" })
      (.error "unused") false .searchEmpty "top companies").1
      "sql" "SQL" (by decide) (by decide) (by decide),
   (C10_override_case_and_unknown (.ok "SQL") (.ok { answer := "a", sql_query := "q" })
      (.error "unused") false .searchEmpty "top companies").2
      "planner" (by decide) (by decide)⟩

/-- C4: when the top-k similarity search returns zero chunks (for example
because the index is empty), the stateless retrieval path returns the fixed
no-relevant-information answer with empty sources and issues zero
generation calls to the gateway. -/
theorem C4_empty_retrieval_no_generation (rs : List (String × String))
    (genAnswer : String) (h : rs = []) :
    RAGAgent.statelessQuery rs genAnswer =
      ({ answer := "I couldn\x27t find any relevant information in the policy documents.",
         sources := [], error := none }, 0) := by
  subst h
  rfl

/-- Witness for C4 at the empty result list. -/
theorem C4_empty_retrieval_no_generation_witness :
    RAGAgent.statelessQuery [] "unused generation" =
      ({ answer := "I couldn\x27t find any relevant information in the policy documents.",
         sources := [], error := none }, 0) :=
  C4_empty_retrieval_no_generation [] "unused generation" rfl

/-! ## RAGAgent ingestion and conversation memory (`src/rag_agent.py`) -/

/-- C6: with `force_reload=false` and a non-empty index, ingestion is a
no-op — same state, zero embed/insert operations — and ingesting the same
document set twice with `force_reload=false` is idempotent on the state. -/
theorem C6_ingest_skip_idempotent (split : String → List String)
    (embed : String → List Int) (docs : List (String × String))
    (st : RAGAgent.AgentState) :
    (0 < st.collection.length →
      RAGAgent.ingest_documents split embed docs false st = (st, 0)) ∧
    (RAGAgent.ingest_documents split embed docs false
        ((RAGAgent.ingest_documents split embed docs false st).1)).1 =
      (RAGAgent.ingest_documents split embed docs false st).1 := by
  constructor
  · intro h
    simp [RAGAgent.ingest_documents, h]
  · by_cases h : 0 < st.collection.length
    · simp [RAGAgent.ingest_documents, h]
    · have hnil : st.collection = [] := by
        cases hc : st.collection with
        | nil => rfl
        | cons a t => rw [hc] at h; exact absurd (Nat.succ_pos t.length) h
      by_cases h2 : 0 <
          (RAGAgent.collectionAdd st.collection
            (RAGAgent.chunksOfDocs split embed docs)).length
      · simp [RAGAgent.ingest_documents, h, h2]
      · have hnil2 : RAGAgent.collectionAdd st.collection
            (RAGAgent.chunksOfDocs split embed docs) = [] := by
          cases hc : RAGAgent.collectionAdd st.collection
              (RAGAgent.chunksOfDocs split embed docs) with
          | nil => rfl
          | cons a t => rw [hc] at h2; exact absurd (Nat.succ_pos t.length) h2
        rw [hnil] at hnil2
        simp [RAGAgent.ingest_documents, h, hnil, hnil2]

/-- Witness for C6 on a one-chunk index: the skip path fires. -/
theorem C6_ingest_skip_idempotent_witness :
    RAGAgent.ingest_documents (fun t => [t]) (fun _ => [0])
        [("report", "TEXT")] false
        { collection := [{ id := "report_chunk_0", text := "TEXT",
                           source := "report.txt", chunk_id := 0,
                           embedding := [0] }],
          memory := none } =
      ({ collection := [{ id := "report_chunk_0", text := "TEXT",
                          source := "report.txt", chunk_id := 0,
                          embedding := [0] }],
         memory := none }, 0) :=
  (C6_ingest_skip_idempotent (fun t => [t]) (fun _ => [0])
      [("report", "TEXT")]
      { collection := [{ id := "report_chunk_0", text := "TEXT",
                         source := "report.txt", chunk_id := 0,
                         embedding := [0] }],
        memory := none }).1 (by decide)

/-- C3 (code bug): `ingest_documents` with `force_reload=true` does NOT
replace prior contents.  With a stale chunk `old_chunk_0` in the index and
the current documents being a single file `report.txt`, the reload keeps
the stale chunk (no deletion ever happens — the code only calls
`collection.add`), so the index differs from a fresh ingest of the same
documents. -/
theorem C3_force_reload_keeps_stale_chunks :
    (let split := fun (t : String) => [t]
     let embed := fun (_ : String) => ([0] : List Int)
     let docs : List (String × String) := [("report", "NEW TEXT")]
     let stale : RAGAgent.Chunk :=
       { id := "old_chunk_0", text := "OLD TEXT", source := "old.txt",
         chunk_id := 0, embedding := [1] }
     let prior : RAGAgent.AgentState := { collection := [stale], memory := none }
     let fresh : RAGAgent.AgentState := { collection := [], memory := none }
     stale ∈ (RAGAgent.ingest_documents split embed docs true prior).1.collection ∧
     (RAGAgent.ingest_documents split embed docs true prior).1.collection ≠
       (RAGAgent.ingest_documents split embed docs true fresh).1.collection) := by
  decide

/-- C9: `clear_memory` empties the conversation turn log and changes
nothing else — the collection (chunk ids, texts, embeddings) is exactly as
before, and the history reads back empty. -/
theorem C9_clear_memory_frame (st : RAGAgent.AgentState) :
    (RAGAgent.clear_memory st).collection = st.collection ∧
    RAGAgent.get_conversation_history (RAGAgent.clear_memory st) = [] := by
  cases h : st.memory with
  | none =>
      constructor
      · simp [RAGAgent.clear_memory, h]
      · simp [RAGAgent.clear_memory, RAGAgent.get_conversation_history, h]
  | some m =>
      constructor
      · simp [RAGAgent.clear_memory, h]
      · simp [RAGAgent.clear_memory, RAGAgent.get_conversation_history, h]
